import Mathlib

/-!
Shallow embedding of the light-state transition engine of
`examples/Lightstrip/main/App.cpp` (zackelia/esp-apple-homekit-adk).

`uint8_t` values are modelled as `Nat` together with explicit `% 256`
wherever the C code can wrap, and range hypotheses (`< 256`) on theorems.
The HomeKit boundary `float` arithmetic is modelled by exact rational
arithmetic on `ℚ`; C `float`-to-`uint8_t` conversion truncates toward zero,
modelled by `Int.toNat ⌊·⌋` (the protocol layer validates the input ranges,
so the converted values fit in a byte).
-/
/-- Blend granularity (`#define STEP 5` in App.cpp). -/
def STEP : Nat := 5

/-- Default hue byte (`#define HUE_DEFAULT 125`). -/
def HUE_DEFAULT : Nat := 125

/-- Default saturation byte (`#define SATURATION_DEFAULT 204`). -/
def SATURATION_DEFAULT : Nat := 204

/-- Default brightness byte (`#define BRIGHTNESS_DEFAULT 120`). -/
def BRIGHTNESS_DEFAULT : Nat := 120

/-- FastLED `scale8_video(i, scale)`: `(i*scale) >> 8` plus `1` when both
arguments are nonzero. -/
def scale8_video (i scale : Nat) : Nat :=
  i * scale / 256 + (if i ≠ 0 ∧ scale ≠ 0 then 1 else 0)

/-- The `nblendU8TowardU8` routine from App.cpp: one blending step of a byte
toward a target byte. `direction` is the `uint8_t` holding `1` or `-1`
(i.e. `255`); the C statement `current += delta * direction` is byte
arithmetic mod 256. -/
def nblendU8TowardU8 (current target : Nat) : Nat :=
  if current = target then current else
  let direction : Nat :=
    if current < target then
      if target - current ≤ 180 then 1 else 255
    else
      if current - target ≤ 180 then 255 else 1
  let delta : Nat :=
    if current < target then scale8_video (target - current) STEP
    else scale8_video (current - target) STEP
  (current + delta * direction) % 256

/-- FastLED `CHSV` triple as used by the engine (raw bytes). -/
structure CHSV where
  hue : Nat
  sat : Nat
  val : Nat
deriving DecidableEq, Repr

/-- The `lightstrip` struct of App.cpp: on/off flag, saved brightness for
on/off restoration, and the HSV color. -/
structure Lightstrip where
  isOn : Bool
  brightness : Nat
  led : CHSV
deriving DecidableEq, Repr

/-- The `state` member of `AccessoryConfiguration`: a current and a target
`lightstrip`. -/
structure EngineState where
  current : Lightstrip
  target : Lightstrip
deriving DecidableEq, Repr

/-- One invocation of `periodic_timer_callback` (the state mutation part):
brightness/on sequencing when the on flags differ, otherwise blending of the
value channel; hue and saturation are blended unconditionally afterwards. -/
def tick (s : EngineState) : EngineState :=
  let s1 :=
    if s.current.isOn ≠ s.target.isOn then
      let cb := s.current.brightness
      let tb := s.target.brightness
      if s.target.isOn then
        if tb ≥ cb then
          if tb - cb < STEP then
            { s with current := { s.current with isOn := true, brightness := tb } }
          else
            { s with current := { s.current with brightness := (cb + STEP) % 256 } }
        else s
      else
        if cb ≥ tb then
          if cb - tb < STEP then
            { s with current := { s.current with isOn := false, brightness := tb } }
          else
            { s with current := { s.current with brightness := (cb + 256 - STEP) % 256 } }
        else s
    else
      { s with current := { s.current with led := { s.current.led with
          val := nblendU8TowardU8 s.current.led.val s.target.led.val } } }
  let s2 := { s1 with current := { s1.current with led := { s1.current.led with
      hue := nblendU8TowardU8 s1.current.led.hue s1.target.led.hue } } }
  { s2 with current := { s2.current with led := { s2.current.led with
      sat := nblendU8TowardU8 s2.current.led.sat s2.target.led.sat } } }

/-- The convergence test at the end of `periodic_timer_callback`
(`current.led == target.led && current.on == target.on` in the C source);
when it holds the callback stops the periodic timer. Note it does not
compare `brightness`. -/
def converged (s : EngineState) : Bool :=
  decide (s.current.led = s.target.led) && decide (s.current.isOn = s.target.isOn)

/-- Whether the callback fired on state `s` disarms the scheduler: the
convergence test is evaluated on the post-tick state. -/
def tickDisarms (s : EngineState) : Bool :=
  converged (tick s)

/-- Iteration of the periodic timer callback `n` times. -/
def tickN : Nat → EngineState → EngineState
  | 0, s => s
  | n + 1, s => tickN n (tick s)

/-- Iteration of the byte blender `n` times toward a fixed target. -/
def blendN : Nat → Nat → Nat → Nat
  | 0, c, _ => c
  | n + 1, c, t => blendN n (nblendU8TowardU8 c t) t

/-- Termination measure for the blender: remaining direct distance in the
direct-direction phases, position until the wrap plus the worst post-wrap
distance in the wrapping phases. -/
def phaseMeasure (c t : Nat) : Nat :=
  if c = t then 0
  else if c < t then
    if t - c ≤ 180 then t - c else c + 76
  else
    if c - t ≤ 180 then c - t else (255 - c) + 76

/-- All four bytes of a `lightstrip` are in range. -/
def LightstripInRange (l : Lightstrip) : Prop :=
  l.brightness < 256 ∧ l.led.hue < 256 ∧ l.led.sat < 256 ∧ l.led.val < 256

/-- All bytes of the engine state are in range (true of the C `uint8_t`
representation by construction). -/
def EngineStateInRange (s : EngineState) : Prop :=
  LightstripInRange s.current ∧ LightstripInRange s.target

/-- The on/off precondition under which ticking converges: either no on/off
edge is pending, or the saved brightness lies on the side of the target
brightness that the edge branch of the tick can actually traverse. -/
def GoodStart (s : EngineState) : Prop :=
  s.current.isOn = s.target.isOn ∨
  (s.target.isOn = true ∧ s.current.brightness ≤ s.target.brightness) ∨
  (s.target.isOn = false ∧ s.target.brightness ≤ s.current.brightness)

/-- A pending on/off edge whose brightness lies on the wrong side of the
target brightness: the edge branch of the tick cannot traverse it. -/
def BadEdge (s : EngineState) : Prop :=
  s.current.isOn ≠ s.target.isOn ∧
  ((s.target.isOn = true ∧ s.target.brightness < s.current.brightness) ∨
   (s.target.isOn = false ∧ s.current.brightness < s.target.brightness))

/-- Effects a write handler may have besides mutating the state: `armed`
models the `update()` call (starting the periodic timer), `saved` the
`SaveAccessoryState()` call, `notified` the `HAPAccessoryServerRaiseEvent`
call. -/
structure Effects where
  armed : Bool
  saved : Bool
  notified : Bool
deriving DecidableEq, Repr

/-- No side effects at all. -/
def noEffects : Effects := ⟨false, false, false⟩

/-- Timer armed, state persisted, change notified. -/
def allEffects : Effects := ⟨true, true, true⟩

/-- Handler `HandleLightBulbOnRead`: returns `current.on`. -/
def HandleLightBulbOnRead (s : EngineState) : Bool :=
  s.current.isOn

/-- Handler `HandleLightBulbOnWrite`: on a change of `target.on`, also resets
`target.brightness` (to `target.led.value` when turning on, to 0 when
turning off), then arms, persists and notifies. -/
def HandleLightBulbOnWrite (s : EngineState) (value : Bool) : EngineState × Effects :=
  if s.target.isOn ≠ value then
    ({ s with target := { s.target with
        isOn := value,
        brightness := if value then s.target.led.val else 0 } }, allEffects)
  else (s, noEffects)

/-- Handler `HandleLightBulbHueRead`: `(current.led.hue * 360) / 255` is C
`int` arithmetic, i.e. an integer division; the resulting integer is then
cast exactly to `float`. -/
def HandleLightBulbHueRead (s : EngineState) : Nat :=
  s.current.led.hue * 360 / 255

/-- Handler `HandleLightBulbHueWrite`: the C code computes `value * 255 / 360`
in `float` (modelled as exact rational arithmetic), compares the stored
byte against that float (integer promoted to float), and on inequality
stores its truncation-toward-zero into the `uint8_t` hue. The protocol
layer guarantees `0 ≤ value ≤ 360`, so the truncation fits in a byte. -/
def HandleLightBulbHueWrite (s : EngineState) (value : ℚ) : EngineState × Effects :=
  let scaled := value * 255 / 360
  if (s.target.led.hue : ℚ) ≠ scaled then
    ({ s with target := { s.target with led := { s.target.led with
        hue := Int.toNat ⌊scaled⌋ } } }, allEffects)
  else (s, noEffects)

/-- Handler `HandleLightBulbSaturationRead`: integer division as for hue. -/
def HandleLightBulbSaturationRead (s : EngineState) : Nat :=
  s.current.led.sat * 100 / 255

/-- Handler `HandleLightBulbSaturationWrite`: float compare-and-store as for
hue, with the 0-100 scale. -/
def HandleLightBulbSaturationWrite (s : EngineState) (value : ℚ) : EngineState × Effects :=
  let scaled := value * 255 / 100
  if (s.target.led.sat : ℚ) ≠ scaled then
    ({ s with target := { s.target with led := { s.target.led with
        sat := Int.toNat ⌊scaled⌋ } } }, allEffects)
  else (s, noEffects)

/-- Handler `HandleLightBulbBrightnessRead`: the C source reads
`current.led.saturation`, not the value channel. -/
def HandleLightBulbBrightnessRead (s : EngineState) : Nat :=
  s.current.led.sat * 100 / 255

/-- Handler `HandleLightBulbBrightnessWrite`: the HomeKit brightness is a C
`int`, so `value * 255 / 100` is an integer division; on a change of
`target.led.value` it also stores the byte into `target.brightness`. The
protocol layer guarantees `0 ≤ value ≤ 100`. -/
def HandleLightBulbBrightnessWrite (s : EngineState) (value : Nat) : EngineState × Effects :=
  let scaled := value * 255 / 100
  if s.target.led.val ≠ scaled then
    ({ s with target := { s.target with
        brightness := scaled,
        led := { s.target.led with val := scaled } } }, allEffects)
  else (s, noEffects)

/-- The state produced by `LoadAccessoryState` when it falls back to
factory defaults: `HAPRawBufferZero` zeroes the whole record (hence both
`on` flags are `false`) and the four default assignments then fill in the
color and brightness bytes of both halves. -/
def defaultEngineState : EngineState :=
  { current := ⟨false, BRIGHTNESS_DEFAULT, ⟨HUE_DEFAULT, SATURATION_DEFAULT, BRIGHTNESS_DEFAULT⟩⟩,
    target := ⟨false, BRIGHTNESS_DEFAULT, ⟨HUE_DEFAULT, SATURATION_DEFAULT, BRIGHTNESS_DEFAULT⟩⟩ }

/-- Load helper `LoadAccessoryState`: `found` and `numBytes` are the outputs
of `HAPPlatformKeyValueStoreGet`, `expectedSize` stands for
`sizeof accessoryConfiguration.state`, and `buffer` is whatever the
platform left in the state buffer. When the record is absent or its size
is unexpected the whole state is zeroed and reset to the defaults;
otherwise the loaded buffer is kept as-is. -/
def LoadAccessoryState (found : Bool) (numBytes expectedSize : Nat)
    (buffer : EngineState) : EngineState :=
  if found = false ∨ numBytes ≠ expectedSize then defaultEngineState
  else buffer

/-- Engine states reachable from the startup defaults through timer ticks
and the four write handlers, with write inputs restricted to the ranges the
HomeKit protocol layer validates. -/
inductive Reachable : EngineState → Prop where
  | init : Reachable defaultEngineState
  | step {s : EngineState} : Reachable s → Reachable (tick s)
  | writeOn {s : EngineState} (v : Bool) : Reachable s →
      Reachable (HandleLightBulbOnWrite s v).1
  | writeHue {s : EngineState} (v : ℚ) : 0 ≤ v → v ≤ 360 → Reachable s →
      Reachable (HandleLightBulbHueWrite s v).1
  | writeSaturation {s : EngineState} (v : ℚ) : 0 ≤ v → v ≤ 100 → Reachable s →
      Reachable (HandleLightBulbSaturationWrite s v).1
  | writeBrightness {s : EngineState} (v : Nat) : v ≤ 100 → Reachable s →
      Reachable (HandleLightBulbBrightnessWrite s v).1

/-- The state reached from startup by `setOn(true)` followed by
`setBrightness(10)`: the brightness write drops `target.brightness` to 25
while the on/off edge is still pending with `current.brightness = 120`. -/
def stuckState : EngineState :=
  (HandleLightBulbBrightnessWrite (HandleLightBulbOnWrite defaultEngineState true).1 10).1

/-- Circular distance between two bytes on the 0-255 wheel. -/
def circDist (a b : Nat) : Nat :=
  min ((a + 256 - b) % 256) ((b + 256 - a) % 256)

/-- Direct (non-wrapping) distance between two bytes. -/
def directDist (c t : Nat) : Nat :=
  if c < t then t - c else c - t

/-- Distance from `c` to `t` along the direction the blender chooses: the
direct distance when it is at most 180, otherwise the wrap-around
distance. -/
def travelDist (c t : Nat) : Nat :=
  if directDist c t ≤ 180 then directDist c t else 256 - directDist c t

/-- The scaled step the blender applies from `c` toward `t`. -/
def blendStep (c t : Nat) : Nat :=
  scale8_video (directDist c t) STEP

/-- Forward (upward) displacement from `a` to `b` on the byte circle. -/
def forwardDisp (a b : Nat) : Nat :=
  (b + 256 - a) % 256

/-- The blender moved the component upward: positive forward displacement
of at most 127 (the step never exceeds 5). -/
def MovesUp (c t : Nat) : Prop :=
  1 ≤ forwardDisp c (nblendU8TowardU8 c t) ∧ forwardDisp c (nblendU8TowardU8 c t) ≤ 127

/-- The blender moved the component downward: forward displacement of at
least 129, i.e. a negative displacement of at most 127. -/
def MovesDown (c t : Nat) : Prop :=
  129 ≤ forwardDisp c (nblendU8TowardU8 c t) ∧ forwardDisp c (nblendU8TowardU8 c t) ≤ 255

/-- A concrete transition: off at brightness 0, commanded on with saved
brightness 200 and a different color. -/
def rampUpState : EngineState :=
  ⟨⟨false, 0, ⟨0, 0, 0⟩⟩, ⟨true, 200, ⟨10, 20, 30⟩⟩⟩

/-- A state whose target hue byte is 0, for the hue-write debounce
counterexample. -/
def hueZeroState : EngineState :=
  ⟨⟨false, 0, ⟨0, 0, 0⟩⟩, ⟨false, 0, ⟨0, 0, 0⟩⟩⟩

/-- A pending off-to-on edge already at its brightness endpoint, with the
same color on both sides. -/
def flipReadyState : EngineState :=
  ⟨⟨false, 120, ⟨125, 204, 120⟩⟩, ⟨true, 120, ⟨125, 204, 120⟩⟩⟩

/-- A record full of junk bytes, standing for a wrong-sized stored blob. -/
def junkRecord : EngineState :=
  ⟨⟨true, 1, ⟨2, 3, 4⟩⟩, ⟨true, 5, ⟨6, 7, 8⟩⟩⟩

/-- A state whose current hue byte is 1, where the read's integer division
is visibly lossy. -/
def hueOneState : EngineState :=
  ⟨⟨false, 0, ⟨1, 1, 1⟩⟩, ⟨false, 0, ⟨1, 1, 1⟩⟩⟩

/-- A state the code's convergence measure accepts whose restore brightness
still differs between current and target. -/
def gapState : EngineState :=
  ⟨⟨true, 7, ⟨0, 0, 0⟩⟩, ⟨true, 99, ⟨0, 0, 0⟩⟩⟩

/-- A state with zero saturation but full value, separating the two read
derivations. -/
def satValMismatchState : EngineState :=
  ⟨⟨true, 255, ⟨0, 0, 255⟩⟩, ⟨true, 255, ⟨0, 0, 255⟩⟩⟩

example : nblendU8TowardU8 10 250 = 5 := by decide
example : nblendU8TowardU8 0 255 = 251 := by decide
example : scale8_video 240 5 = 5 := by decide

/-- Bounds on the scaled step: it is between 1 and 5, never exceeds the
distance it was scaled from, and is at least 4 on distances above 180. -/
theorem scale8_video_bounds (d : Nat) (h1 : 1 ≤ d) (h2 : d ≤ 255) :
    1 ≤ scale8_video d STEP ∧ scale8_video d STEP ≤ 5 ∧ scale8_video d STEP ≤ d ∧
      (180 < d → 4 ≤ scale8_video d STEP) := by
  unfold scale8_video STEP
  rw [if_pos (show d ≠ 0 ∧ (5 : Nat) ≠ 0 by omega)]
  omega

/-- Closed form of the blender for `current ≠ target`: one byte addition of
`delta * direction` mod 256. -/
theorem nblend_spec (c t : Nat) (hne : c ≠ t) :
    nblendU8TowardU8 c t =
      (c + (if c < t then scale8_video (t - c) STEP else scale8_video (c - t) STEP) *
        (if c < t then (if t - c ≤ 180 then 1 else 255)
         else (if c - t ≤ 180 then 255 else 1))) % 256 := by
  unfold nblendU8TowardU8
  rw [if_neg hne]

/-- The blender fixes its target. -/
theorem nblend_self (t : Nat) : nblendU8TowardU8 t t = t := by
  unfold nblendU8TowardU8
  rw [if_pos rfl]

/-- The blender output is a byte. -/
theorem nblend_lt_256 (c t : Nat) (hc : c < 256) : nblendU8TowardU8 c t < 256 := by
  by_cases h : c = t
  · subst h; rw [nblend_self]; exact hc
  · rw [nblend_spec c t h]; exact Nat.mod_lt _ (by omega)

/-- The measure is positive on non-converged components. -/
theorem phaseMeasure_pos (c t : Nat) (hne : c ≠ t) : 1 ≤ phaseMeasure c t := by
  unfold phaseMeasure
  split_ifs <;> omega

/-- The measure is at most 180 on byte inputs. -/
theorem phaseMeasure_le (c t : Nat) (hc : c < 256) (ht : t < 256) :
    phaseMeasure c t ≤ 180 := by
  unfold phaseMeasure
  split_ifs <;> omega

/-- Closed form, ascending non-wrapping branch: move up by the scaled step. -/
theorem nblend_direct_up (c t : Nat) (ht : t < 256) (hlt : c < t) (h180 : t - c ≤ 180) :
    nblendU8TowardU8 c t = c + scale8_video (t - c) STEP := by
  obtain ⟨s1, s2, s3, s4⟩ := scale8_video_bounds (t - c) (by omega) (by omega)
  rw [nblend_spec c t (by omega), if_pos hlt, if_pos hlt, if_pos h180]
  omega

/-- Closed form, descending wrap branch: move down by the scaled step, byte
arithmetic wrapping below zero. -/
theorem nblend_wrap_down (c t : Nat) (hc : c < 256) (ht : t < 256) (hlt : c < t)
    (h180 : ¬ t - c ≤ 180) :
    nblendU8TowardU8 c t =
      if scale8_video (t - c) STEP ≤ c then c - scale8_video (t - c) STEP
      else c + 256 - scale8_video (t - c) STEP := by
  obtain ⟨s1, s2, s3, s4⟩ := scale8_video_bounds (t - c) (by omega) (by omega)
  rw [nblend_spec c t (by omega), if_pos hlt, if_pos hlt, if_neg h180]
  split_ifs <;> omega

/-- Closed form, descending non-wrapping branch: move down by the scaled
step (which never exceeds `c`). -/
theorem nblend_direct_down (c t : Nat) (hc : c < 256) (hgt : t < c) (h180 : c - t ≤ 180) :
    nblendU8TowardU8 c t = c - scale8_video (c - t) STEP := by
  obtain ⟨s1, s2, s3, s4⟩ := scale8_video_bounds (c - t) (by omega) (by omega)
  rw [nblend_spec c t (by omega), if_neg (by omega : ¬ c < t),
    if_neg (by omega : ¬ c < t), if_pos h180]
  omega

/-- Closed form, ascending wrap branch: move up by the scaled step, byte
arithmetic wrapping past 255. -/
theorem nblend_wrap_up (c t : Nat) (hc : c < 256) (hgt : t < c) (h180 : ¬ c - t ≤ 180) :
    nblendU8TowardU8 c t =
      if c + scale8_video (c - t) STEP ≤ 255 then c + scale8_video (c - t) STEP
      else c + scale8_video (c - t) STEP - 256 := by
  obtain ⟨s1, s2, s3, s4⟩ := scale8_video_bounds (c - t) (by omega) (by omega)
  rw [nblend_spec c t (by omega), if_neg (by omega : ¬ c < t),
    if_neg (by omega : ¬ c < t), if_neg h180]
  split_ifs <;> omega

/-- Every blender step strictly decreases the measure. -/
theorem phaseMeasure_blend_lt (c t : Nat) (hc : c < 256) (ht : t < 256) (hne : c ≠ t) :
    phaseMeasure (nblendU8TowardU8 c t) t < phaseMeasure c t := by
  rcases Nat.lt_or_ge c t with hlt | hge
  · obtain ⟨s1, s2, s3, s4⟩ := scale8_video_bounds (t - c) (by omega) (by omega)
    by_cases h180 : t - c ≤ 180
    · rw [nblend_direct_up c t ht hlt h180]
      unfold phaseMeasure
      split_ifs <;> omega
    · rw [nblend_wrap_down c t hc ht hlt h180]
      unfold phaseMeasure
      split_ifs <;> omega
  · have hgt : t < c := by omega
    obtain ⟨s1, s2, s3, s4⟩ := scale8_video_bounds (c - t) (by omega) (by omega)
    by_cases h180 : c - t ≤ 180
    · rw [nblend_direct_down c t hc hgt h180]
      unfold phaseMeasure
      split_ifs <;> omega
    · rw [nblend_wrap_up c t hc hgt h180]
      unfold phaseMeasure
      split_ifs <;> omega

/-- Iterated blending stays within bytes. -/
theorem blendN_lt_256 : ∀ (n c t : Nat), c < 256 → blendN n c t < 256
  | 0, _, _, hc => hc
  | n + 1, c, t, hc => blendN_lt_256 n _ t (nblend_lt_256 c t hc)

/-- Iterated blending reaches the target once the iteration count dominates
the measure. -/
theorem blendN_eq_of_measure_le :
    ∀ (n c t : Nat), c < 256 → t < 256 → phaseMeasure c t ≤ n → blendN n c t = t := by
  intro n
  induction n with
  | zero =>
    intro c t hc ht h
    by_contra hne
    have := phaseMeasure_pos c t (by simpa [blendN] using hne)
    omega
  | succ n ih =>
    intro c t hc ht h
    by_cases hct : c = t
    · subst hct
      show blendN n (nblendU8TowardU8 c c) c = c
      rw [nblend_self]
      exact ih c c hc hc (by simp [phaseMeasure])
    · show blendN n (nblendU8TowardU8 c t) t = t
      have := phaseMeasure_blend_lt c t hc ht hct
      exact ih _ t (nblend_lt_256 c t hc) ht (by omega)

/-- Convergence of 256 blender iterations on any byte inputs. -/
theorem blendN_256 (c t : Nat) (hc : c < 256) (ht : t < 256) : blendN 256 c t = t :=
  blendN_eq_of_measure_le 256 c t hc ht (by have := phaseMeasure_le c t hc ht; omega)

/-- A tick never mutates the target state. -/
theorem tick_target (s : EngineState) : (tick s).target = s.target := by
  obtain ⟨⟨con, cb, ⟨ch, cs, cv⟩⟩, ⟨ton, tb, ⟨th, ts, tv⟩⟩⟩ := s
  simp only [tick]
  split_ifs <;> rfl

/-- Every tick blends the hue one step, in both branches. -/
theorem tick_hue (s : EngineState) :
    (tick s).current.led.hue = nblendU8TowardU8 s.current.led.hue s.target.led.hue := by
  obtain ⟨⟨con, cb, ⟨ch, cs, cv⟩⟩, ⟨ton, tb, ⟨th, ts, tv⟩⟩⟩ := s
  simp only [tick]
  split_ifs <;> rfl

/-- Every tick blends the saturation one step, in both branches. -/
theorem tick_sat (s : EngineState) :
    (tick s).current.led.sat = nblendU8TowardU8 s.current.led.sat s.target.led.sat := by
  obtain ⟨⟨con, cb, ⟨ch, cs, cv⟩⟩, ⟨ton, tb, ⟨th, ts, tv⟩⟩⟩ := s
  simp only [tick]
  split_ifs <;> rfl

/-- With matching on/off flags a tick only blends the color value channel:
flag and saved brightness are untouched. -/
theorem tick_onEq (s : EngineState) (h : s.current.isOn = s.target.isOn) :
    (tick s).current.isOn = s.current.isOn ∧
    (tick s).current.brightness = s.current.brightness ∧
    (tick s).current.led.val = nblendU8TowardU8 s.current.led.val s.target.led.val := by
  obtain ⟨⟨con, cb, ⟨ch, cs, cv⟩⟩, ⟨ton, tb, ⟨th, ts, tv⟩⟩⟩ := s
  simp only at h
  simp only [tick, h]
  split_ifs <;> simp_all

/-- With differing flags a tick never touches the color value channel. -/
theorem tick_onNe_val (s : EngineState) (h : s.current.isOn ≠ s.target.isOn) :
    (tick s).current.led.val = s.current.led.val := by
  obtain ⟨⟨con, cb, ⟨ch, cs, cv⟩⟩, ⟨ton, tb, ⟨th, ts, tv⟩⟩⟩ := s
  simp only at h
  simp only [tick]
  split_ifs <;> simp_all

/-- Ticks keep all bytes in range. -/
theorem tick_inRange (s : EngineState) (h : EngineStateInRange s) :
    EngineStateInRange (tick s) := by
  obtain ⟨⟨con, cb, ⟨ch, cs, cv⟩⟩, ⟨ton, tb, ⟨th, ts, tv⟩⟩⟩ := s
  simp only [EngineStateInRange, LightstripInRange] at h ⊢
  obtain ⟨⟨h1, h2, h3, h4⟩, h5, h6, h7, h8⟩ := h
  simp only [tick]
  split_ifs <;>
    refine ⟨⟨?_, ?_, ?_, ?_⟩, h5, h6, h7, h8⟩ <;>
    dsimp only <;>
    first
      | omega
      | exact Nat.mod_lt _ (by omega)
      | exact nblend_lt_256 _ _ (by assumption)

/-- Tick iteration splits over addition. -/
theorem tickN_add : ∀ (a b : Nat) (s : EngineState), tickN (a + b) s = tickN b (tickN a s)
  | 0, b, s => by rw [Nat.zero_add]; rfl
  | a + 1, b, s => by
    rw [show a + 1 + b = a + b + 1 by omega]
    show tickN (a + b) (tick s) = tickN b (tickN a (tick s))
    exact tickN_add a b (tick s)

/-- As long as the flags agree, `n` ticks amount to `n` independent blender
iterations on the three color channels; everything else is frozen. -/
theorem tickN_onEq : ∀ (n : Nat) (s : EngineState), s.current.isOn = s.target.isOn →
    (tickN n s).current.isOn = s.current.isOn ∧
    (tickN n s).current.brightness = s.current.brightness ∧
    (tickN n s).target = s.target ∧
    (tickN n s).current.led.hue = blendN n s.current.led.hue s.target.led.hue ∧
    (tickN n s).current.led.sat = blendN n s.current.led.sat s.target.led.sat ∧
    (tickN n s).current.led.val = blendN n s.current.led.val s.target.led.val := by
  intro n
  induction n with
  | zero => exact fun s _ => ⟨rfl, rfl, rfl, rfl, rfl, rfl⟩
  | succ n ih =>
    intro s h
    obtain ⟨e1, e2, e3⟩ := tick_onEq s h
    have h' : (tick s).current.isOn = (tick s).target.isOn := by
      rw [e1, tick_target]; exact h
    obtain ⟨i1, i2, i3, i4, i5, i6⟩ := ih (tick s) h'
    rw [show tickN (n + 1) s = tickN n (tick s) from rfl]
    refine ⟨by rw [i1, e1], by rw [i2, e2], by rw [i3, tick_target], ?_, ?_, ?_⟩
    · rw [i4, tick_hue, tick_target]; rfl
    · rw [i5, tick_sat, tick_target]; rfl
    · rw [i6, e3, tick_target]; rfl

/-- Turning on, within one step of the saved brightness: the flag flips and
the brightness snaps to the target in the same tick. -/
theorem tick_edge_on_near (s : EngineState) (hcon : s.current.isOn = false)
    (hton : s.target.isOn = true) (hle : s.current.brightness ≤ s.target.brightness)
    (hnear : s.target.brightness - s.current.brightness < STEP) :
    (tick s).current.isOn = true ∧ (tick s).current.brightness = s.target.brightness := by
  obtain ⟨⟨con, cb, ⟨ch, cs, cv⟩⟩, ⟨ton, tb, ⟨th, ts, tv⟩⟩⟩ := s
  simp only at hcon hton hle hnear
  subst hcon; subst hton
  simp only [tick]
  split_ifs <;> simp_all <;> omega

/-- Turning on, still far from the saved brightness: the flag stays off and
the brightness advances by exactly one step. -/
theorem tick_edge_on_far (s : EngineState) (hcon : s.current.isOn = false)
    (hton : s.target.isOn = true) (hle : s.current.brightness ≤ s.target.brightness)
    (hfar : ¬ s.target.brightness - s.current.brightness < STEP)
    (htb : s.target.brightness < 256) :
    (tick s).current.isOn = false ∧
    (tick s).current.brightness = s.current.brightness + STEP := by
  obtain ⟨⟨con, cb, ⟨ch, cs, cv⟩⟩, ⟨ton, tb, ⟨th, ts, tv⟩⟩⟩ := s
  simp only at hcon hton hle hfar htb
  subst hcon; subst hton
  simp only [tick, STEP] at hfar ⊢
  split_ifs <;> simp_all <;> omega

/-- Turning off, within one step of the target brightness. -/
theorem tick_edge_off_near (s : EngineState) (hcon : s.current.isOn = true)
    (hton : s.target.isOn = false) (hle : s.target.brightness ≤ s.current.brightness)
    (hnear : s.current.brightness - s.target.brightness < STEP) :
    (tick s).current.isOn = false ∧ (tick s).current.brightness = s.target.brightness := by
  obtain ⟨⟨con, cb, ⟨ch, cs, cv⟩⟩, ⟨ton, tb, ⟨th, ts, tv⟩⟩⟩ := s
  simp only at hcon hton hle hnear
  subst hcon; subst hton
  simp only [tick]
  split_ifs <;> simp_all <;> omega

/-- Turning off, still far from the target brightness. -/
theorem tick_edge_off_far (s : EngineState) (hcon : s.current.isOn = true)
    (hton : s.target.isOn = false) (hle : s.target.brightness ≤ s.current.brightness)
    (hfar : ¬ s.current.brightness - s.target.brightness < STEP)
    (hcb : s.current.brightness < 256) :
    (tick s).current.isOn = true ∧
    (tick s).current.brightness = s.current.brightness - STEP := by
  obtain ⟨⟨con, cb, ⟨ch, cs, cv⟩⟩, ⟨ton, tb, ⟨th, ts, tv⟩⟩⟩ := s
  simp only at hcon hton hle hfar hcb
  subst hcon; subst hton
  simp only [tick, STEP] at hfar ⊢
  split_ifs <;> simp_all <;> omega

/-- Phase B, turning on: while the flags differ the brightness climbs to its
target in at most `d / 5 + 1` ticks, the value channel is frozen, and hue
and saturation keep blending. -/
theorem edgeN_on (d : Nat) : ∀ s : EngineState, EngineStateInRange s →
    s.current.isOn = false → s.target.isOn = true →
    s.current.brightness ≤ s.target.brightness →
    s.target.brightness - s.current.brightness = d →
    ∃ k, k ≤ d / 5 + 1 ∧
      (tickN k s).current.isOn = true ∧
      (tickN k s).current.brightness = s.target.brightness ∧
      (tickN k s).current.led.val = s.current.led.val ∧
      (tickN k s).current.led.hue = blendN k s.current.led.hue s.target.led.hue ∧
      (tickN k s).current.led.sat = blendN k s.current.led.sat s.target.led.sat ∧
      (tickN k s).target = s.target := by
  induction d using Nat.strong_induction_on with
  | _ d ih =>
    intro s hr hcon hton hle hd
    have hne : s.current.isOn ≠ s.target.isOn := by rw [hcon, hton]; simp
    by_cases hnear : s.target.brightness - s.current.brightness < STEP
    · obtain ⟨f1, f2⟩ := tick_edge_on_near s hcon hton hle hnear
      exact ⟨1, by omega, f1, f2, tick_onNe_val s hne, tick_hue s, tick_sat s, tick_target s⟩
    · have hstep : STEP = 5 := rfl
      obtain ⟨f1, f2⟩ := tick_edge_on_far s hcon hton hle hnear hr.2.1
      have hr' := tick_inRange s hr
      have hton' : (tick s).target.isOn = true := by rw [tick_target]; exact hton
      have hle' : (tick s).current.brightness ≤ (tick s).target.brightness := by
        rw [f2, tick_target]; omega
      have hd' : (tick s).target.brightness - (tick s).current.brightness = d - 5 := by
        rw [f2, tick_target]; omega
      obtain ⟨k, hk, g1, g2, g3, g4, g5, g6⟩ := ih (d - 5) (by omega) (tick s) hr' f1 hton' hle' hd'
      rw [tick_target] at g2 g6
      rw [tick_onNe_val s hne] at g3
      rw [tick_hue s, tick_target s] at g4
      rw [tick_sat s, tick_target s] at g5
      exact ⟨k + 1, by omega, g1, g2, g3, g4, g5, g6⟩

/-- Phase B, turning off: mirror image of `edgeN_on`. -/
theorem edgeN_off (d : Nat) : ∀ s : EngineState, EngineStateInRange s →
    s.current.isOn = true → s.target.isOn = false →
    s.target.brightness ≤ s.current.brightness →
    s.current.brightness - s.target.brightness = d →
    ∃ k, k ≤ d / 5 + 1 ∧
      (tickN k s).current.isOn = false ∧
      (tickN k s).current.brightness = s.target.brightness ∧
      (tickN k s).current.led.val = s.current.led.val ∧
      (tickN k s).current.led.hue = blendN k s.current.led.hue s.target.led.hue ∧
      (tickN k s).current.led.sat = blendN k s.current.led.sat s.target.led.sat ∧
      (tickN k s).target = s.target := by
  induction d using Nat.strong_induction_on with
  | _ d ih =>
    intro s hr hcon hton hle hd
    have hne : s.current.isOn ≠ s.target.isOn := by rw [hcon, hton]; simp
    by_cases hnear : s.current.brightness - s.target.brightness < STEP
    · obtain ⟨f1, f2⟩ := tick_edge_off_near s hcon hton hle hnear
      exact ⟨1, by omega, f1, f2, tick_onNe_val s hne, tick_hue s, tick_sat s, tick_target s⟩
    · have hstep : STEP = 5 := rfl
      obtain ⟨f1, f2⟩ := tick_edge_off_far s hcon hton hle hnear hr.1.1
      have hr' := tick_inRange s hr
      have hton' : (tick s).target.isOn = false := by rw [tick_target]; exact hton
      have hle' : (tick s).target.brightness ≤ (tick s).current.brightness := by
        rw [f2, tick_target]; omega
      have hd' : (tick s).current.brightness - (tick s).target.brightness = d - 5 := by
        rw [f2, tick_target]; omega
      obtain ⟨k, hk, g1, g2, g3, g4, g5, g6⟩ := ih (d - 5) (by omega) (tick s) hr' f1 hton' hle' hd'
      rw [tick_target] at g2 g6
      rw [tick_onNe_val s hne] at g3
      rw [tick_hue s, tick_target s] at g4
      rw [tick_sat s, tick_target s] at g5
      exact ⟨k + 1, by omega, g1, g2, g3, g4, g5, g6⟩

/-- Unfolding of the convergence flag. -/
theorem converged_true_iff (s : EngineState) :
    converged s = true ↔ s.current.led = s.target.led ∧ s.current.isOn = s.target.isOn := by
  simp [converged]

/-- A converged state is a fixed point of the tick. -/
theorem tick_fix (s : EngineState) (h : converged s = true) : tick s = s := by
  obtain ⟨⟨con, cb, ⟨ch, cs, cv⟩⟩, ⟨ton, tb, ⟨th, ts, tv⟩⟩⟩ := s
  rw [converged_true_iff] at h
  simp only [CHSV.mk.injEq] at h
  obtain ⟨⟨e1, e2, e3⟩, e4⟩ := h
  subst e1; subst e2; subst e3; subst e4
  simp [tick, nblend_self]

/-- The callback fired on a converged state stops the timer. -/
theorem tickDisarms_of_converged (s : EngineState) (h : converged s = true) :
    tickDisarms s = true := by
  unfold tickDisarms
  rw [tick_fix s h]
  exact h

/-- Iterated ticks stay within bytes. -/
theorem tickN_inRange : ∀ (n : Nat) (s : EngineState),
    EngineStateInRange s → EngineStateInRange (tickN n s)
  | 0, _, h => h
  | n + 1, s, h => tickN_inRange n (tick s) (tick_inRange s h)

/-- Peeling one tick off the end of an iteration. -/
theorem tickN_succ (n : Nat) (s : EngineState) : tickN (n + 1) s = tick (tickN n s) :=
  tickN_add n 1 s

/-- Phase A: from a state with agreeing flags, 256 ticks converge. -/
theorem converged_onEq (s : EngineState) (hr : EngineStateInRange s)
    (h : s.current.isOn = s.target.isOn) : converged (tickN 256 s) = true := by
  obtain ⟨⟨b1, b2, b3, b4⟩, c1, c2, c3, c4⟩ := hr
  obtain ⟨i1, i2, i3, i4, i5, i6⟩ := tickN_onEq 256 s h
  rw [converged_true_iff]
  generalize hgen : tickN 256 s = u at i1 i2 i3 i4 i5 i6 ⊢
  constructor
  · have eled : u.current.led =
        (⟨u.current.led.hue, u.current.led.sat, u.current.led.val⟩ : CHSV) := rfl
    rw [eled, i4, i5, i6, blendN_256 _ _ b2 c2, blendN_256 _ _ b3 c3, blendN_256 _ _ b4 c4, i3]
  · rw [i1, i3, h]

/-- Full convergence from a good state: within at most 308 ticks (at most 52
brightness-edge ticks followed by at most 256 blending ticks) the engine
reaches a state whose color and flag equal the target's, and the callback
fired there stops the periodic timer. -/
theorem convergence_from_good (s : EngineState) (hr : EngineStateInRange s)
    (hg : GoodStart s) :
    ∃ n, n ≤ 308 ∧ converged (tickN n s) = true ∧ tickDisarms (tickN n s) = true := by
  have onEqCase : ∀ u : EngineState, EngineStateInRange u →
      u.current.isOn = u.target.isOn →
      converged (tickN 256 u) = true ∧ tickDisarms (tickN 256 u) = true := by
    intro u hru hu
    have hc := converged_onEq u hru hu
    exact ⟨hc, tickDisarms_of_converged _ hc⟩
  rcases hg with h | ⟨hton, hle⟩ | ⟨hton, hle⟩
  · obtain ⟨hc, hd⟩ := onEqCase s hr h
    exact ⟨256, by omega, hc, hd⟩
  · by_cases hon : s.current.isOn = s.target.isOn
    · obtain ⟨hc, hd⟩ := onEqCase s hr hon
      exact ⟨256, by omega, hc, hd⟩
    · have hcon : s.current.isOn = false := by simpa [hton] using hon
      obtain ⟨k, hk, g1, g2, g3, g4, g5, g6⟩ :=
        edgeN_on (s.target.brightness - s.current.brightness) s hr hcon hton hle rfl
      have hk52 : k ≤ 52 := by have := hr.2.1; omega
      have hon' : (tickN k s).current.isOn = (tickN k s).target.isOn := by
        rw [g1, g6, hton]
      obtain ⟨hc, hd⟩ := onEqCase (tickN k s) (tickN_inRange k s hr) hon'
      rw [← tickN_add k 256 s] at hc hd
      exact ⟨k + 256, by omega, hc, hd⟩
  · by_cases hon : s.current.isOn = s.target.isOn
    · obtain ⟨hc, hd⟩ := onEqCase s hr hon
      exact ⟨256, by omega, hc, hd⟩
    · have hcon : s.current.isOn = true := by simpa [hton] using hon
      obtain ⟨k, hk, g1, g2, g3, g4, g5, g6⟩ :=
        edgeN_off (s.current.brightness - s.target.brightness) s hr hcon hton hle rfl
      have hk52 : k ≤ 52 := by have := hr.1.1; omega
      have hon' : (tickN k s).current.isOn = (tickN k s).target.isOn := by
        rw [g1, g6, hton]
      obtain ⟨hc, hd⟩ := onEqCase (tickN k s) (tickN_inRange k s hr) hon'
      rw [← tickN_add k 256 s] at hc hd
      exact ⟨k + 256, by omega, hc, hd⟩

/-- On a bad edge the tick leaves flag and saved brightness untouched. -/
theorem tick_badEdge_frozen (s : EngineState) (h : BadEdge s) :
    (tick s).current.brightness = s.current.brightness ∧
    (tick s).current.isOn = s.current.isOn := by
  obtain ⟨⟨con, cb, ⟨ch, cs, cv⟩⟩, ⟨ton, tb, ⟨th, ts, tv⟩⟩⟩ := s
  obtain ⟨hne, hbad⟩ := h
  simp only at hne hbad
  simp only [tick]
  split_ifs <;> first
    | exact ⟨rfl, rfl⟩
    | (exfalso; rcases hbad with ⟨e, hb⟩ | ⟨e, hb⟩ <;> simp_all <;> omega)

/-- Bad edges are invariant under ticking. -/
theorem badEdge_tick (s : EngineState) (h : BadEdge s) : BadEdge (tick s) := by
  obtain ⟨f1, f2⟩ := tick_badEdge_frozen s h
  unfold BadEdge
  rw [f1, f2, tick_target]
  exact h

/-- Bad edges are invariant under iterated ticking. -/
theorem badEdge_tickN : ∀ (n : Nat) (s : EngineState), BadEdge s → BadEdge (tickN n s)
  | 0, _, h => h
  | n + 1, s, h => badEdge_tickN n (tick s) (badEdge_tick s h)

/-- A state with differing flags is reported unconverged. -/
theorem converged_false_of_onNe (s : EngineState)
    (h : s.current.isOn ≠ s.target.isOn) : converged s = false := by
  unfold converged
  rw [decide_eq_false h, Bool.and_false]

example : stuckState =
    { current := { isOn := false, brightness := 120, led := ⟨125, 204, 120⟩ },
      target := { isOn := true, brightness := 25, led := ⟨125, 204, 25⟩ } } := by decide

example : BadEdge stuckState := by
  constructor <;> decide

/-- C2 counterexample: advancing hue 0 toward 255 moves down to 251, passing
through and beyond the target: the circular distance to the target grows
from 1 to 4, refuting "distance-to-target after the tick is ≤ its
distance-to-target before". -/
theorem C2_counterexample :
    nblendU8TowardU8 0 255 = 251 ∧ circDist 0 255 = 1 ∧
    circDist (nblendU8TowardU8 0 255) 255 = 4 := by
  refine ⟨by decide, by decide, by decide⟩

/-- C2 (amended): the blender always steps by at least 1 when the component
differs from its target; the distance measured along the chosen travel
direction decreases by exactly the scaled step whenever that distance is at
least the step (so the component never passes through and beyond the
target); in the remaining case - only possible when the direct distance is
at least 252, i.e. the two bytes are within 4 of each other across the
0/255 wrap - the component overshoots past the target by at most 4. -/
theorem C2_amended_no_overshoot (c t : Nat) (hc : c < 256) (ht : t < 256) (hne : c ≠ t) :
    1 ≤ blendStep c t ∧
    (blendStep c t ≤ travelDist c t →
      travelDist (nblendU8TowardU8 c t) t = travelDist c t - blendStep c t) ∧
    (travelDist c t < blendStep c t →
      252 ≤ directDist c t ∧
      travelDist (nblendU8TowardU8 c t) t = blendStep c t - travelDist c t ∧
      travelDist (nblendU8TowardU8 c t) t ≤ 4) := by
  rcases Nat.lt_or_ge c t with hlt | hge
  · obtain ⟨s1, s2, s3, s4⟩ := scale8_video_bounds (t - c) (by omega) (by omega)
    by_cases h180 : t - c ≤ 180
    · rw [nblend_direct_up c t ht hlt h180]
      unfold blendStep travelDist directDist
      split_ifs <;> omega
    · rw [nblend_wrap_down c t hc ht hlt h180]
      unfold blendStep travelDist directDist
      split_ifs <;> omega
  · have hgt : t < c := by omega
    obtain ⟨s1, s2, s3, s4⟩ := scale8_video_bounds (c - t) (by omega) (by omega)
    by_cases h180 : c - t ≤ 180
    · rw [nblend_direct_down c t hc hgt h180]
      unfold blendStep travelDist directDist
      split_ifs <;> omega
    · rw [nblend_wrap_up c t hc hgt h180]
      unfold blendStep travelDist directDist
      split_ifs <;> omega

/-- C2 witness: the amended statement evaluated at hue 10 toward 250. -/
theorem C2_amended_no_overshoot_witness :
    1 ≤ blendStep 10 250 ∧
    (blendStep 10 250 ≤ travelDist 10 250 →
      travelDist (nblendU8TowardU8 10 250) 250 = travelDist 10 250 - blendStep 10 250) ∧
    (travelDist 10 250 < blendStep 10 250 →
      252 ≤ directDist 10 250 ∧
      travelDist (nblendU8TowardU8 10 250) 250 = blendStep 10 250 - travelDist 10 250 ∧
      travelDist (nblendU8TowardU8 10 250) 250 ≤ 4) :=
  C2_amended_no_overshoot 10 250 (by decide) (by decide) (by decide)

/-- C4: the blender's direction rule. For `current < target` it moves up
exactly when `target - current ≤ 180` and otherwise wraps downward past 0;
for `current > target` it moves down exactly when `current - target ≤ 180`
and otherwise wraps upward past 255. In particular hue 10 advancing toward
250 moves downward (to 5, on its way through 0), not upward. -/
theorem C4_direction_rule :
    (∀ c t : Nat, c < 256 → t < 256 → c ≠ t →
      ((c < t → (MovesUp c t ↔ t - c ≤ 180)) ∧
       (c < t → ¬ t - c ≤ 180 → MovesDown c t) ∧
       (t < c → (MovesDown c t ↔ c - t ≤ 180)) ∧
       (t < c → ¬ c - t ≤ 180 → MovesUp c t))) ∧
    nblendU8TowardU8 10 250 = 5 ∧ MovesDown 10 250 := by
  refine ⟨?_, by decide, by constructor <;> decide⟩
  intro c t hc ht hne
  rcases Nat.lt_or_ge c t with hlt | hge
  · obtain ⟨s1, s2, s3, s4⟩ := scale8_video_bounds (t - c) (by omega) (by omega)
    by_cases h180 : t - c ≤ 180
    · unfold MovesUp MovesDown forwardDisp
      rw [nblend_direct_up c t ht hlt h180]
      refine ⟨?_, ?_, ?_, ?_⟩ <;> intros <;> first | omega | constructor <;> omega
    · unfold MovesUp MovesDown forwardDisp
      rw [nblend_wrap_down c t hc ht hlt h180]
      split_ifs <;> refine ⟨?_, ?_, ?_, ?_⟩ <;> intros <;>
        first | omega | constructor <;> omega
  · have hgt : t < c := by omega
    obtain ⟨s1, s2, s3, s4⟩ := scale8_video_bounds (c - t) (by omega) (by omega)
    by_cases h180 : c - t ≤ 180
    · unfold MovesUp MovesDown forwardDisp
      rw [nblend_direct_down c t hc hgt h180]
      refine ⟨?_, ?_, ?_, ?_⟩ <;> intros <;> first | omega | constructor <;> omega
    · unfold MovesUp MovesDown forwardDisp
      rw [nblend_wrap_up c t hc hgt h180]
      split_ifs <;> refine ⟨?_, ?_, ?_, ?_⟩ <;> intros <;>
        first | omega | constructor <;> omega

/-- C4 witness: the direction rule evaluated at (0, 100) - an upward move -
discharging the range hypotheses there. -/
theorem C4_direction_rule_witness :
    (0 : Nat) < 256 ∧ (100 : Nat) < 256 ∧
    ((0 : Nat) < 100 → (MovesUp 0 100 ↔ (100 : Nat) - 0 ≤ 180)) :=
  ⟨by decide, by decide, (C4_direction_rule.1 0 100 (by decide) (by decide) (by decide)).1⟩

/-- C1 counterexample: the claim quantifies over all reachable states, but
`stuckState` - reached from startup defaults by `setOn(true)` followed by
`setBrightness(10)` - is reachable, is a fixed point of the tick, and is
not converged (its on/off flags differ), so repeated ticking never makes
`current` equal `target` and the callback never stops the timer, refuting
convergence within any bound. -/
theorem C1_counterexample :
    Reachable stuckState ∧ tick stuckState = stuckState ∧
    converged stuckState = false ∧ tickDisarms stuckState = false :=
  ⟨Reachable.writeBrightness 10 (by decide) (Reachable.writeOn true Reachable.init),
   by decide, by decide, by decide⟩

/-- C1 (amended): for every in-range engine state whose pending on/off edge
(if any) has `current.brightness` on the traversable side of
`target.brightness` - in particular every state with no pending edge -
repeated ticking reaches, within at most 308 ticks, a state whose color
channels and on/off flag all equal the target's, and the callback fired on
that state stops the periodic timer. Reachable states violating that
brightness precondition exist and never converge (see the counterexample). -/
theorem C1_amended_convergence (s : EngineState) (hr : EngineStateInRange s)
    (hg : GoodStart s) :
    ∃ n, n ≤ 308 ∧ converged (tickN n s) = true ∧ tickDisarms (tickN n s) = true :=
  convergence_from_good s hr hg

/-- C1 witness: the amended convergence applied to `rampUpState`. -/
theorem C1_amended_convergence_witness :
    EngineStateInRange rampUpState ∧ GoodStart rampUpState ∧
    ∃ n, n ≤ 308 ∧ converged (tickN n rampUpState) = true ∧
      tickDisarms (tickN n rampUpState) = true :=
  ⟨⟨⟨by decide, by decide, by decide, by decide⟩,
    ⟨by decide, by decide, by decide, by decide⟩⟩,
   Or.inr (Or.inl ⟨by decide, by decide⟩),
   C1_amended_convergence rampUpState
     ⟨⟨by decide, by decide, by decide, by decide⟩,
      ⟨by decide, by decide, by decide, by decide⟩⟩
     (Or.inr (Or.inl ⟨by decide, by decide⟩))⟩

/-- C3 counterexample: `setHue(1)` rescales to `255/360`, about 0.708, which
truncates to byte 0 - the stored target hue byte - yet the handler arms the
timer, persists and notifies (while storing an unchanged byte), because the
C code compares the `uint8_t` 0 against the scaled float `255/360 ≠ 0`. -/
theorem C3_counterexample :
    Int.toNat ⌊(1 : ℚ) * 255 / 360⌋ = hueZeroState.target.led.hue ∧
    (HandleLightBulbHueWrite hueZeroState 1).2 = allEffects ∧
    (HandleLightBulbHueWrite hueZeroState 1).1 = hueZeroState := by
  refine ⟨by norm_num [hueZeroState], ?_, ?_⟩
  · simp only [HandleLightBulbHueWrite, hueZeroState]
    rw [if_pos (by norm_num)]
  · simp only [HandleLightBulbHueWrite, hueZeroState]
    rw [if_pos (by norm_num)]
    norm_num

/-- C3 (amended): a write is a no-op (no arming, no persistence, no
notification, no state change) exactly when the incoming value equals the
stored target value in the comparison domain the C code actually uses:
exact float equality of the rescaled value against the stored byte for hue
and saturation, integer equality of the rescaled value for brightness, and
boolean equality for on/off. A hue or saturation write whose argument
rescales to the same byte but not exactly to the stored byte's value still
arms, persists and notifies. -/
theorem C3_amended_debounce :
    (∀ (s : EngineState) (v : Bool),
      ((HandleLightBulbOnWrite s v).2 = noEffects ↔ s.target.isOn = v) ∧
      (s.target.isOn = v → (HandleLightBulbOnWrite s v).1 = s)) ∧
    (∀ (s : EngineState) (v : ℚ),
      ((HandleLightBulbHueWrite s v).2 = noEffects ↔
        (s.target.led.hue : ℚ) = v * 255 / 360) ∧
      ((s.target.led.hue : ℚ) = v * 255 / 360 → (HandleLightBulbHueWrite s v).1 = s)) ∧
    (∀ (s : EngineState) (v : ℚ),
      ((HandleLightBulbSaturationWrite s v).2 = noEffects ↔
        (s.target.led.sat : ℚ) = v * 255 / 100) ∧
      ((s.target.led.sat : ℚ) = v * 255 / 100 →
        (HandleLightBulbSaturationWrite s v).1 = s)) ∧
    (∀ (s : EngineState) (v : Nat),
      ((HandleLightBulbBrightnessWrite s v).2 = noEffects ↔
        s.target.led.val = v * 255 / 100) ∧
      (s.target.led.val = v * 255 / 100 → (HandleLightBulbBrightnessWrite s v).1 = s)) := by
  refine ⟨?_, ?_, ?_, ?_⟩
  · intro s v
    unfold HandleLightBulbOnWrite
    by_cases h : s.target.isOn = v
    · rw [if_neg (not_not_intro h)]
      exact ⟨by simp [h], fun _ => rfl⟩
    · rw [if_pos h]
      exact ⟨⟨fun he => by simp [allEffects, noEffects] at he, fun he => absurd he h⟩,
             fun he => absurd he h⟩
  · intro s v
    simp only [HandleLightBulbHueWrite]
    by_cases h : (s.target.led.hue : ℚ) = v * 255 / 360
    · rw [if_neg (not_not_intro h)]
      exact ⟨by simp [h], fun _ => rfl⟩
    · rw [if_pos h]
      exact ⟨⟨fun he => by simp [allEffects, noEffects] at he, fun he => absurd he h⟩,
             fun he => absurd he h⟩
  · intro s v
    simp only [HandleLightBulbSaturationWrite]
    by_cases h : (s.target.led.sat : ℚ) = v * 255 / 100
    · rw [if_neg (not_not_intro h)]
      exact ⟨by simp [h], fun _ => rfl⟩
    · rw [if_pos h]
      exact ⟨⟨fun he => by simp [allEffects, noEffects] at he, fun he => absurd he h⟩,
             fun he => absurd he h⟩
  · intro s v
    simp only [HandleLightBulbBrightnessWrite]
    by_cases h : s.target.led.val = v * 255 / 100
    · rw [if_neg (not_not_intro h)]
      exact ⟨by simp [h], fun _ => rfl⟩
    · rw [if_pos h]
      exact ⟨⟨fun he => by simp [allEffects, noEffects] at he, fun he => absurd he h⟩,
             fun he => absurd he h⟩

/-- C3 witness: an on-write carrying the already-stored value is a no-op. -/
theorem C3_amended_debounce_witness :
    defaultEngineState.target.isOn = false ∧
    (HandleLightBulbOnWrite defaultEngineState false).2 = noEffects ∧
    (HandleLightBulbOnWrite defaultEngineState false).1 = defaultEngineState :=
  ⟨rfl, (C3_amended_debounce.1 defaultEngineState false).1.mpr rfl,
   (C3_amended_debounce.1 defaultEngineState false).2 rfl⟩

/-- C5: while an on/off edge is pending, any tick that flips `current.on`
flips it to `target.on` and, in the same tick, sets `current.brightness`
(the restore brightness) to `target.brightness`: the flip never happens in
a tick whose resulting brightness is not at its endpoint, i.e. never
earlier. -/
theorem C5_flip_atomic (s : EngineState)
    (hne : s.current.isOn ≠ s.target.isOn)
    (hflip : (tick s).current.isOn ≠ s.current.isOn) :
    (tick s).current.isOn = s.target.isOn ∧
    (tick s).current.brightness = s.target.brightness := by
  obtain ⟨⟨con, cb, ⟨ch, cs, cv⟩⟩, ⟨ton, tb, ⟨th, ts, tv⟩⟩⟩ := s
  simp only at hne
  simp only [tick] at hflip ⊢
  split_ifs at hflip ⊢ <;> simp_all

/-- C5 witness: the edge of `flipReadyState` completes in one tick. -/
theorem C5_flip_atomic_witness :
    flipReadyState.current.isOn ≠ flipReadyState.target.isOn ∧
    (tick flipReadyState).current.isOn ≠ flipReadyState.current.isOn ∧
    ((tick flipReadyState).current.isOn = flipReadyState.target.isOn ∧
     (tick flipReadyState).current.brightness = flipReadyState.target.brightness) :=
  ⟨by decide, by decide, C5_flip_atomic flipReadyState (by decide) (by decide)⟩

/-- C6: with a pending on/off edge whose brightness is on the wrong side
(turning on with `target.brightness < current.brightness`, or turning off
with `target.brightness > current.brightness`), a tick leaves
`current.brightness` and `current.on` unchanged, and no number of ticks
ever converges or stops the timer. -/
theorem C6_bad_edge_freezes (s : EngineState) (h : BadEdge s) :
    (tick s).current.brightness = s.current.brightness ∧
    (tick s).current.isOn = s.current.isOn ∧
    ∀ n : Nat, converged (tickN n s) = false ∧ tickDisarms (tickN n s) = false := by
  obtain ⟨f1, f2⟩ := tick_badEdge_frozen s h
  refine ⟨f1, f2, fun n => ?_⟩
  have hb := badEdge_tickN n s h
  have hb' := badEdge_tick _ hb
  refine ⟨converged_false_of_onNe _ hb.1, ?_⟩
  unfold tickDisarms
  exact converged_false_of_onNe _ hb'.1

/-- C6 witness: the frozen edge evaluated at `stuckState`. -/
theorem C6_bad_edge_freezes_witness :
    BadEdge stuckState ∧
    (tick stuckState).current.brightness = stuckState.current.brightness ∧
    converged (tickN 3 stuckState) = false :=
  ⟨by constructor <;> decide,
   (C6_bad_edge_freezes stuckState (by constructor <;> decide)).1,
   ((C6_bad_edge_freezes stuckState (by constructor <;> decide)).2.2 3).1⟩

/-- C7: when the persisted record is absent, or present with an unexpected
size, the load helper resets the entire engine state to the factory
defaults; the result does not depend on the loaded buffer at all, so no
field of a wrong-sized record is ever merged. -/
theorem C7_load_defaults (found : Bool) (numBytes expectedSize : Nat)
    (buffer : EngineState) (h : found = false ∨ numBytes ≠ expectedSize) :
    LoadAccessoryState found numBytes expectedSize buffer = defaultEngineState := by
  unfold LoadAccessoryState
  rw [if_pos h]

/-- C7 witness: a found record of 4 bytes against an expected size of 8 is
discarded wholesale. -/
theorem C7_load_defaults_witness :
    (true = false ∨ (4 : Nat) ≠ 8) ∧
    LoadAccessoryState true 4 8 junkRecord = defaultEngineState :=
  ⟨by decide, C7_load_defaults true 4 8 junkRecord (by decide)⟩

/-- C8 counterexample: reading hue byte 1 returns the integer 1, not the
exact real `1 * 360 / 255 = 24/17`; and `setHue(1)` stores
`trunc(1 * 255/360) = 0`, not `round(1/360*255) = 1`. Both the read and the
write sides of the claim fail. -/
theorem C8_counterexample :
    HandleLightBulbHueRead hueOneState = 1 ∧
    ((HandleLightBulbHueRead hueOneState : ℚ) ≠ (hueOneState.current.led.hue : ℚ) * 360 / 255) ∧
    (HandleLightBulbHueWrite defaultEngineState 1).1.target.led.hue = 0 ∧
    round ((1 : ℚ) * 255 / 360) = 1 := by
  refine ⟨by decide, by norm_num [HandleLightBulbHueRead, hueOneState], ?_, by norm_num [round_eq]⟩
  simp only [HandleLightBulbHueWrite, defaultEngineState, HUE_DEFAULT]
  rw [if_pos (by norm_num)]
  norm_num

/-- C8 (amended): the characteristic boundary uses truncating conversions,
not exact real rounding: hue reads return the integer quotient
`byte * 360 / 255` and saturation reads `byte * 100 / 255`; a hue write
stores `trunc(value * 255 / 360)` (float arithmetic modelled exactly on
the rationals), a saturation write `trunc(value * 255 / 100)`, and a
brightness write the C integer quotient `value * 255 / 100`. -/
theorem C8_amended_boundary :
    (∀ s : EngineState, HandleLightBulbHueRead s = s.current.led.hue * 360 / 255) ∧
    (∀ s : EngineState, HandleLightBulbSaturationRead s = s.current.led.sat * 100 / 255) ∧
    (∀ (s : EngineState) (v : ℚ),
      (HandleLightBulbHueWrite s v).1.target.led.hue = Int.toNat ⌊v * 255 / 360⌋) ∧
    (∀ (s : EngineState) (v : ℚ),
      (HandleLightBulbSaturationWrite s v).1.target.led.sat = Int.toNat ⌊v * 255 / 100⌋) ∧
    (∀ (s : EngineState) (v : Nat),
      (HandleLightBulbBrightnessWrite s v).1.target.led.val = v * 255 / 100) := by
  refine ⟨fun s => rfl, fun s => rfl, ?_, ?_, ?_⟩
  · intro s v
    simp only [HandleLightBulbHueWrite]
    by_cases h : (s.target.led.hue : ℚ) = v * 255 / 360
    · rw [if_neg (not_not_intro h), ← h, Int.floor_natCast, Int.toNat_natCast]
    · rw [if_pos h]
  · intro s v
    simp only [HandleLightBulbSaturationWrite]
    by_cases h : (s.target.led.sat : ℚ) = v * 255 / 100
    · rw [if_neg (not_not_intro h), ← h, Int.floor_natCast, Int.toNat_natCast]
    · rw [if_pos h]
  · intro s v
    simp only [HandleLightBulbBrightnessWrite]
    by_cases h : s.target.led.val = v * 255 / 100
    · rw [if_neg (not_not_intro h)]
      exact h
    · rw [if_pos h]

/-- C9: with agreeing on/off flags a tick never touches
`current.brightness`, and since the convergence test compares only the
color triple and the flags, the timer is stopped at `gapState` even though
`current.brightness = 7` differs from `target.brightness = 99`. -/
theorem C9_disarm_ignores_brightness :
    (∀ s : EngineState, s.current.isOn = s.target.isOn →
      (tick s).current.brightness = s.current.brightness) ∧
    (converged gapState = true ∧ tickDisarms gapState = true ∧
      gapState.current.brightness ≠ gapState.target.brightness) :=
  ⟨fun s h => (tick_onEq s h).2.1, by decide, by decide, by decide⟩

/-- C9 witness: the brightness-preservation half evaluated at `gapState`. -/
theorem C9_disarm_ignores_brightness_witness :
    gapState.current.isOn = gapState.target.isOn ∧
    (tick gapState).current.brightness = gapState.current.brightness :=
  ⟨by decide, C9_disarm_ignores_brightness.1 gapState (by decide)⟩

/-- C10: the brightness-read handler returns the value derived from the
current saturation byte - identical to the saturation read - and not the
value derived from the brightness (value) byte: at `satValMismatchState` it
returns 0 while the value-derived quantity is 100. -/
theorem C10_brightness_read_returns_saturation :
    (∀ s : EngineState,
      HandleLightBulbBrightnessRead s = s.current.led.sat * 100 / 255 ∧
      HandleLightBulbBrightnessRead s = HandleLightBulbSaturationRead s) ∧
    HandleLightBulbBrightnessRead satValMismatchState = 0 ∧
    satValMismatchState.current.led.val * 100 / 255 = 100 :=
  ⟨fun s => ⟨rfl, rfl⟩, by decide, by decide⟩
